import Mathlib

/-!
Shallow embedding of the Polkadot candidate-validation subsystem
(`node/core/candidate-validation/src/lib.rs`).

External collaborators (hashing, SCALE encoding, sr25519 signature checking,
maybe-compressed-blob decompression, the runtime API and the PVF execution
host) live outside this crate; they are modelled as function fields of an
environment `Env`, so every theorem quantifies over their behaviour.  The
control flow of `perform_basic_checks`, `validate_candidate_exhaustive`,
`check_assumption_validation_data`, `find_assumed_validation_data` and
`spawn_validate_from_chain_state` is translated line by line from the source.
-/

namespace CandidateValidation

/-- 32-byte hashes, modelled abstractly. -/
abbrev Hash := Nat

/-- Parachain identifiers. -/
abbrev ParaId := Nat

/-- Modelled from the spec: a subsystem-fatal (message-bus) error; its payload
is irrelevant to this core, which only propagates it. -/
structure SubsystemError where
  code : Nat
deriving DecidableEq, Repr

/-- Modelled from the spec: an error reported by the runtime API collaborator. -/
structure RuntimeApiError where
  code : Nat
deriving DecidableEq, Repr

/-- Parachain head data (opaque bytes). -/
abbrev HeadData := List Nat

/-- Opaque block data bytes. -/
abbrev BlockData := List Nat

/-- Proof-of-Validity: opaque `block_data`, possibly compressed. -/
structure PoV where
  block_data : BlockData
deriving DecidableEq, Repr

/-- Validation code: opaque WASM bytecode, possibly compressed.  The Rust
type is a tuple struct; its `.0` field is `bytes` here. -/
structure ValidationCode where
  bytes : List Nat
deriving DecidableEq, Repr

/-- The relay-state snapshot a candidate must have been built against. -/
structure PersistedValidationData where
  parent_head : HeadData
  relay_parent_number : Nat
  relay_parent_storage_root : Hash
  max_pov_size : Nat
deriving DecidableEq, Repr

/-- The collator's commitment to a candidate (`polkadot_primitives::v1`).
The collator public key and signature are opaque here; signature checking is
an environment operation on the whole descriptor. -/
structure CandidateDescriptor where
  para_id : ParaId
  relay_parent : Hash
  collator : Nat
  persisted_validation_data_hash : Hash
  pov_hash : Hash
  erasure_root : Hash
  signature : Nat
  para_head : Hash
  validation_code_hash : Hash
deriving DecidableEq, Repr

/-- A message from a parachain to the relay chain (opaque bytes). -/
abbrev UpwardMessage := List Nat

/-- A horizontal (para-to-para) message. -/
structure OutboundHrmpMessage where
  recipient : ParaId
  data : List Nat
deriving DecidableEq, Repr

/-- Commitments made by a candidate, recorded on success. -/
structure CandidateCommitments where
  upward_messages : List UpwardMessage
  horizontal_messages : List OutboundHrmpMessage
  new_validation_code : Option ValidationCode
  head_data : HeadData
  processed_downward_messages : Nat
  hrmp_watermark : Nat
deriving DecidableEq, Repr

/-- The outputs of a successful WASM execution
(`polkadot_parachain::primitives::ValidationResult`). -/
structure WasmValidationResult where
  head_data : HeadData
  new_validation_code : Option ValidationCode
  upward_messages : List UpwardMessage
  horizontal_messages : List OutboundHrmpMessage
  processed_downward_messages : Nat
  hrmp_watermark : Nat
deriving DecidableEq, Repr

/-- The contract passed into the WASM execution. -/
structure ValidationParams where
  parent_head : HeadData
  block_data : BlockData
  relay_parent_number : Nat
  relay_parent_storage_root : Hash
deriving DecidableEq, Repr

/-- Candidate-invalidity causes reported by the PVF execution host
(`polkadot_node_core_pvf::InvalidCandidate`).  The `AmbigiousWorkerDeath`
constructor keeps the source's spelling. -/
inductive WasmInvalidCandidate where
  | HardTimeout
  | WorkerReportedError (msg : String)
  | AmbigiousWorkerDeath
deriving DecidableEq, Repr

/-- Errors of the PVF execution host (`polkadot_node_core_pvf::ValidationError`). -/
inductive ValidationError where
  | InternalError (msg : String)
  | InvalidCandidate (c : WasmInvalidCandidate)
deriving DecidableEq, Repr

/-- Candidate-invalidity reasons of this subsystem
(`polkadot_node_primitives::InvalidCandidate`). -/
inductive InvalidCandidate where
  | ExecutionError (msg : String)
  | InvalidOutputs
  | Timeout
  | ParamsTooLarge (size : Nat)
  | CodeHashMismatch
  | PoVHashMismatch
  | BadSignature
  | PoVDecompressionFailure
  | CodeDecompressionFailure
  | BadParent
  | ParaHeadHashMismatch
deriving DecidableEq, Repr

/-- The successful-validation sum type
(`polkadot_node_primitives::ValidationResult`). -/
inductive ValidationResult where
  | Valid (commitments : CandidateCommitments) (pvd : PersistedValidationData)
  | Invalid (reason : InvalidCandidate)
deriving DecidableEq, Repr

/-- The internal-failure outcome: validation could not be carried out. -/
structure ValidationFailed where
  msg : String
deriving DecidableEq, Repr

/-- Core-state assumptions for relay-state queries. -/
inductive OccupiedCoreAssumption where
  | Included
  | TimedOut
  | Free
deriving DecidableEq, Repr

/-- Outcome of probing one core-state assumption. -/
inductive AssumptionCheckOutcome where
  | Matches (d : PersistedValidationData) (c : ValidationCode)
  | DoesNotMatch
  | BadRequest
deriving DecidableEq, Repr

/-- Modelled from the spec: the external collaborators of this core.  Hashing,
encoded size, signature verification and bounded decompression are pure
functions of their inputs; the three runtime-API request kinds are functions
of (relay parent, para id, argument) returning a possibly-failed reply, with
the outer `Except SubsystemError` standing for a broken reply channel. -/
structure Env where
  hash_head_data : HeadData → Hash
  hash_pov : PoV → Hash
  hash_validation_code : ValidationCode → Hash
  hash_pvd : PersistedValidationData → Hash
  encoded_size : PoV → Nat
  check_collator_signature : CandidateDescriptor → Except Unit Unit
  decompress : List Nat → Nat → Except Unit (List Nat)
  persisted_validation_data_req : Hash → ParaId → OccupiedCoreAssumption →
    Except SubsystemError (Except RuntimeApiError (Option PersistedValidationData))
  validation_code_req : Hash → ParaId → OccupiedCoreAssumption →
    Except SubsystemError (Except RuntimeApiError (Option ValidationCode))
  check_validation_outputs_req : Hash → ParaId → CandidateCommitments →
    Except SubsystemError (Except RuntimeApiError Bool)

/-- The execution-host capability as seen through the `ValidationBackend`
trait: raw (decompressed) code and params in, result or error out. -/
abbrev ValidationBackend :=
  List Nat → ValidationParams → Except ValidationError WasmValidationResult

/-- Modelled from the spec: the validation-code bomb limit constant from
`polkadot-node-primitives` (not under src/).  Its value is immaterial here
because decompression is an abstract environment operation. -/
def VALIDATION_CODE_BOMB_LIMIT : Nat := 16 * 1024 * 1024

/-- Modelled from the spec: the PoV bomb limit constant from
`polkadot-node-primitives` (not under src/). -/
def POV_BOMB_LIMIT : Nat := 32 * 1024 * 1024

/-- `perform_basic_checks` from the source: size, PoV hash, code hash and
collator signature, in that order, first failure wins. -/
def perform_basic_checks (env : Env) (candidate : CandidateDescriptor)
    (max_pov_size : Nat) (pov : PoV) (validation_code : ValidationCode) :
    Except InvalidCandidate Unit :=
  let pov_hash := env.hash_pov pov
  let validation_code_hash := env.hash_validation_code validation_code
  let encoded_pov_size := env.encoded_size pov
  if encoded_pov_size > max_pov_size then
    .error (.ParamsTooLarge encoded_pov_size)
  else if pov_hash ≠ candidate.pov_hash then
    .error .PoVHashMismatch
  else if validation_code_hash ≠ candidate.validation_code_hash then
    .error .CodeHashMismatch
  else
    match env.check_collator_signature candidate with
    | .error () => .error .BadSignature
    | .ok () => .ok ()

/-- `validate_candidate_exhaustive` from the source: basic checks, bounded
decompression of code then PoV, host execution, outcome classification. -/
def validate_candidate_exhaustive (env : Env)
    (validation_backend : ValidationBackend)
    (persisted_validation_data : PersistedValidationData)
    (validation_code : ValidationCode)
    (descriptor : CandidateDescriptor) (pov : PoV) :
    Except SubsystemError (Except ValidationFailed ValidationResult) :=
  match perform_basic_checks env descriptor persisted_validation_data.max_pov_size
      pov validation_code with
  | .error e => .ok (.ok (.Invalid e))
  | .ok () =>
    match env.decompress validation_code.bytes VALIDATION_CODE_BOMB_LIMIT with
    | .error _ => .ok (.ok (.Invalid .CodeDecompressionFailure))
    | .ok raw_validation_code =>
      match env.decompress pov.block_data POV_BOMB_LIMIT with
      | .error _ => .ok (.ok (.Invalid .PoVDecompressionFailure))
      | .ok raw_block_data =>
        let params : ValidationParams :=
          { parent_head := persisted_validation_data.parent_head
            block_data := raw_block_data
            relay_parent_number := persisted_validation_data.relay_parent_number
            relay_parent_storage_root :=
              persisted_validation_data.relay_parent_storage_root }
        let result := validation_backend raw_validation_code params
        match result with
        | .error (.InternalError e) => .ok (.error ⟨e⟩)
        | .error (.InvalidCandidate .HardTimeout) =>
            .ok (.ok (.Invalid .Timeout))
        | .error (.InvalidCandidate (.WorkerReportedError e)) =>
            .ok (.ok (.Invalid (.ExecutionError e)))
        | .error (.InvalidCandidate .AmbigiousWorkerDeath) =>
            .ok (.ok (.Invalid (.ExecutionError "ambigious worker death")))
        | .ok res =>
          if env.hash_head_data res.head_data ≠ descriptor.para_head then
            .ok (.ok (.Invalid .ParaHeadHashMismatch))
          else
            .ok (.ok (.Valid
              { head_data := res.head_data
                upward_messages := res.upward_messages
                horizontal_messages := res.horizontal_messages
                new_validation_code := res.new_validation_code
                processed_downward_messages := res.processed_downward_messages
                hrmp_watermark := res.hrmp_watermark }
              persisted_validation_data))

/-- `check_assumption_validation_data` from the source: fetch the persisted
validation data for one assumption, compare its hash against the descriptor,
and on a match fetch the validation code for the same assumption. -/
def check_assumption_validation_data (env : Env)
    (descriptor : CandidateDescriptor) (assumption : OccupiedCoreAssumption) :
    Except SubsystemError AssumptionCheckOutcome :=
  match env.persisted_validation_data_req descriptor.relay_parent
      descriptor.para_id assumption with
  | .error se => .error se
  | .ok d =>
    match d with
    | .ok none | .error _ => .ok .BadRequest
    | .ok (some validation_data) =>
      let persisted_validation_data_hash := env.hash_pvd validation_data
      if descriptor.persisted_validation_data_hash = persisted_validation_data_hash then
        match env.validation_code_req descriptor.relay_parent
            descriptor.para_id assumption with
        | .error se => .error se
        | .ok validation_code =>
          match validation_code with
          | .ok none | .error _ => .ok .BadRequest
          | .ok (some v) => .ok (.Matches validation_data v)
      else
        .ok .DoesNotMatch

/-- The assumption list probed by `find_assumed_validation_data`
(`TimedOut` and `Free` are equivalent, so `Free` is not probed). -/
def ASSUMPTIONS : List OccupiedCoreAssumption := [.Included, .TimedOut]

/-- The `for assumption in ASSUMPTIONS` loop body of
`find_assumed_validation_data`: `Matches` and `BadRequest` short-circuit,
`DoesNotMatch` moves to the next assumption. -/
def find_assumed_loop (env : Env) (descriptor : CandidateDescriptor) :
    List OccupiedCoreAssumption → Except SubsystemError AssumptionCheckOutcome
  | [] => .ok .DoesNotMatch
  | assumption :: rest =>
    match check_assumption_validation_data env descriptor assumption with
    | .error se => .error se
    | .ok outcome =>
      match outcome with
      | .Matches d c => .ok (.Matches d c)
      | .BadRequest => .ok .BadRequest
      | .DoesNotMatch => find_assumed_loop env descriptor rest

/-- `find_assumed_validation_data` from the source. -/
def find_assumed_validation_data (env : Env)
    (descriptor : CandidateDescriptor) :
    Except SubsystemError AssumptionCheckOutcome :=
  find_assumed_loop env descriptor ASSUMPTIONS

/-- `spawn_validate_from_chain_state` from the source: resolve inputs via the
assumption search, run the exhaustive validation, and post-check the outputs
of a `Valid` verdict with the `CheckValidationOutputs` runtime call. -/
def spawn_validate_from_chain_state (env : Env)
    (validation_backend : ValidationBackend)
    (descriptor : CandidateDescriptor) (pov : PoV) :
    Except SubsystemError (Except ValidationFailed ValidationResult) :=
  match find_assumed_validation_data env descriptor with
  | .error se => .error se
  | .ok .DoesNotMatch => .ok (.ok (.Invalid .BadParent))
  | .ok .BadRequest => .ok (.error ⟨"Assumption Check: Bad request"⟩)
  | .ok (.Matches validation_data validation_code) =>
    let validation_result :=
      validate_candidate_exhaustive env validation_backend validation_data
        validation_code descriptor pov
    match validation_result with
    | .ok (.ok (.Valid outputs pvd)) =>
      match env.check_validation_outputs_req descriptor.relay_parent
          descriptor.para_id outputs with
      | .error se => .error se
      | .ok (.ok true) => .ok (.ok (.Valid outputs pvd))
      | .ok (.ok false) => .ok (.ok (.Invalid .InvalidOutputs))
      | .ok (.error _) => .ok (.error ⟨"Check Validation Outputs: Bad request"⟩)
    | other => other

/-- Modelled from the spec (§4.5, step for one assumption `A`): query the
persisted validation data; an API error or "no such data" is `BadRequest`; a
hash mismatch means "continue to the next assumption" (`none` here); a hash
match queries the validation code, `BadRequest` on error/absence and
`Matches` on presence. -/
def probe_spec (env : Env) (d : CandidateDescriptor)
    (a : OccupiedCoreAssumption) :
    Except SubsystemError (Option AssumptionCheckOutcome) :=
  match env.persisted_validation_data_req d.relay_parent d.para_id a with
  | .error se => .error se
  | .ok (.error _) | .ok (.ok none) => .ok (some .BadRequest)
  | .ok (.ok (some data)) =>
    if env.hash_pvd data ≠ d.persisted_validation_data_hash then .ok none
    else
      match env.validation_code_req d.relay_parent d.para_id a with
      | .error se => .error se
      | .ok (.error _) | .ok (.ok none) => .ok (some .BadRequest)
      | .ok (.ok (some code)) => .ok (some (.Matches data code))

/-- Modelled from the spec (§4.5): probe `Included` then `TimedOut` in that
order, short-circuiting on any `some` outcome; if neither assumption matched
after all hashes compared, the result is `DoesNotMatch`. -/
def resolve_spec (env : Env) (d : CandidateDescriptor) :
    Except SubsystemError AssumptionCheckOutcome :=
  match probe_spec env d .Included with
  | .error se => .error se
  | .ok (some o) => .ok o
  | .ok none =>
    match probe_spec env d .TimedOut with
    | .error se => .error se
    | .ok (some o) => .ok o
    | .ok none => .ok .DoesNotMatch

/-- Whether the persisted-validation-data answer for assumption `a` is
anything other than a hash-matching `Ok(Some(data))` (error, absence, or a
mismatching hash). -/
def pvd_no_match_at (env : Env) (d : CandidateDescriptor)
    (a : OccupiedCoreAssumption) : Bool :=
  match env.persisted_validation_data_req d.relay_parent d.para_id a with
  | .ok (.ok (some v)) => env.hash_pvd v != d.persisted_validation_data_hash
  | _ => true

/-- Whether a full validation result is a `Valid` verdict. -/
def is_valid_result
    (r : Except SubsystemError (Except ValidationFailed ValidationResult)) :
    Bool :=
  match r with
  | .ok (.ok (.Valid _ _)) => true
  | _ => false

deriving instance DecidableEq for Except

/-! ### Concrete instances used by witnesses and counterexamples -/

/-- A concrete persisted validation data. -/
def gpvd : PersistedValidationData :=
  { parent_head := [], relay_parent_number := 0,
    relay_parent_storage_root := 0, max_pov_size := 100 }

/-- A concrete validation code blob. -/
def gcode : ValidationCode := ⟨[1, 2]⟩

/-- A concrete PoV. -/
def gpov : PoV := ⟨[5]⟩

/-- A concrete descriptor whose hash fields agree with `genv`'s hashes of
`gpvd`, `gpov`, `gcode` and `gres.head_data`. -/
def gdescriptor : CandidateDescriptor :=
  { para_id := 7, relay_parent := 3, collator := 0,
    persisted_validation_data_hash := 100, pov_hash := 1, erasure_root := 0,
    signature := 0, para_head := 0, validation_code_hash := 2 }

/-- A concrete successful host result. -/
def gres : WasmValidationResult :=
  { head_data := [], new_validation_code := none, upward_messages := [],
    horizontal_messages := [], processed_downward_messages := 0,
    hrmp_watermark := 0 }

/-- The commitments assembled from `gres`. -/
def gcommitments : CandidateCommitments :=
  { upward_messages := [], horizontal_messages := [],
    new_validation_code := none, head_data := [],
    processed_downward_messages := 0, hrmp_watermark := 0 }

/-- A concrete backend that always succeeds with `gres`. -/
def gbackend : ValidationBackend := fun _ _ => .ok gres

/-- A concrete environment on which everything succeeds: hashes are lengths
(`hash_pvd` is `max_pov_size`), decompression is the identity, the runtime
API returns `gpvd`/`gcode` and accepts all outputs. -/
def genv : Env :=
  { hash_head_data := fun h => h.length
    hash_pov := fun p => p.block_data.length
    hash_validation_code := fun c => c.bytes.length
    hash_pvd := fun p => p.max_pov_size
    encoded_size := fun p => p.block_data.length
    check_collator_signature := fun _ => .ok ()
    decompress := fun b _ => .ok b
    persisted_validation_data_req := fun _ _ _ => .ok (.ok (some gpvd))
    validation_code_req := fun _ _ _ => .ok (.ok (some gcode))
    check_validation_outputs_req := fun _ _ _ => .ok (.ok true) }

/-! ### Helper lemmas -/

/-- Any inner validation result is an internal failure, a `Valid` verdict or
an `Invalid` verdict: the type is an exhaustive three-way sum. -/
theorem result_shape (r : Except ValidationFailed ValidationResult) :
    (∃ m, r = .error ⟨m⟩) ∨ (∃ c p, r = .ok (.Valid c p)) ∨
      (∃ reason, r = .ok (.Invalid reason)) := by
  cases r with
  | error e => exact Or.inl ⟨e.msg, rfl⟩
  | ok v =>
    cases v with
    | Valid c p => exact Or.inr (Or.inl ⟨c, p, rfl⟩)
    | Invalid reason => exact Or.inr (Or.inr ⟨reason, rfl⟩)

/-! ### Claim theorems -/

/-- C3: if `perform_basic_checks` returns `Err(r)`, then
`validate_candidate_exhaustive` returns `Invalid(r)`; the conclusion holds
for every backend, so the execution host is never invoked. -/
theorem basic_check_priority (env : Env) (b : ValidationBackend)
    (pvd : PersistedValidationData) (code : ValidationCode)
    (d : CandidateDescriptor) (pov : PoV) (r : InvalidCandidate)
    (h : perform_basic_checks env d pvd.max_pov_size pov code = .error r) :
    validate_candidate_exhaustive env b pvd code d pov = .ok (.ok (.Invalid r)) := by
  unfold validate_candidate_exhaustive
  rw [h]

/-- Witness for C3: a PoV larger than `max_pov_size = 0` fails the basic
checks with `ParamsTooLarge` and the exhaustive validator returns it. -/
theorem basic_check_priority_witness :
    validate_candidate_exhaustive genv gbackend
      { gpvd with max_pov_size := 0 } gcode gdescriptor gpov
      = .ok (.ok (.Invalid (.ParamsTooLarge 1))) :=
  basic_check_priority genv gbackend { gpvd with max_pov_size := 0 } gcode
    gdescriptor gpov (.ParamsTooLarge 1) rfl

/-- C10: for every input and every backend behaviour,
`validate_candidate_exhaustive` completes with the outer subsystem result
`Ok(_)` (it never produces a subsystem-fatal error), and the inner result is
exactly one of `InternalFailure`, `Valid` or `Invalid`. -/
theorem exhaustive_total_ok (env : Env) (b : ValidationBackend)
    (pvd : PersistedValidationData) (code : ValidationCode)
    (d : CandidateDescriptor) (pov : PoV) :
    ∃ r, validate_candidate_exhaustive env b pvd code d pov = .ok r ∧
      ((∃ m, r = .error ⟨m⟩) ∨ (∃ c p, r = .ok (.Valid c p)) ∨
        (∃ reason, r = .ok (.Invalid reason))) := by
  unfold validate_candidate_exhaustive
  dsimp only
  repeat' split
  all_goals exact ⟨_, rfl, result_shape _⟩

/-- C1: classification of the execution-host outcome inside
`validate_candidate_exhaustive`, after basic checks and both decompressions
succeed: a successful result with matching head-data hash yields `Valid` with
commitments assembled verbatim from the host result, a mismatching hash
yields `Invalid(ParaHeadHashMismatch)`, `HardTimeout` yields
`Invalid(Timeout)`, `WorkerReportedError(m)` yields
`Invalid(ExecutionError(m))`, and `InternalError(m)` yields
`ValidationFailed(m)`. -/
theorem execution_classifier_cases (env : Env) (b : ValidationBackend)
    (pvd : PersistedValidationData) (code : ValidationCode)
    (d : CandidateDescriptor) (pov : PoV) (raw_code raw_block : List Nat)
    (hb : perform_basic_checks env d pvd.max_pov_size pov code = .ok ())
    (hc : env.decompress code.bytes VALIDATION_CODE_BOMB_LIMIT = .ok raw_code)
    (hp : env.decompress pov.block_data POV_BOMB_LIMIT = .ok raw_block) :
    (∀ res, b raw_code ⟨pvd.parent_head, raw_block, pvd.relay_parent_number,
        pvd.relay_parent_storage_root⟩ = .ok res →
      env.hash_head_data res.head_data = d.para_head →
      validate_candidate_exhaustive env b pvd code d pov = .ok (.ok (.Valid
        ⟨res.upward_messages, res.horizontal_messages, res.new_validation_code,
          res.head_data, res.processed_downward_messages, res.hrmp_watermark⟩
        pvd))) ∧
    (∀ res, b raw_code ⟨pvd.parent_head, raw_block, pvd.relay_parent_number,
        pvd.relay_parent_storage_root⟩ = .ok res →
      env.hash_head_data res.head_data ≠ d.para_head →
      validate_candidate_exhaustive env b pvd code d pov
        = .ok (.ok (.Invalid .ParaHeadHashMismatch))) ∧
    (b raw_code ⟨pvd.parent_head, raw_block, pvd.relay_parent_number,
        pvd.relay_parent_storage_root⟩
        = .error (.InvalidCandidate .HardTimeout) →
      validate_candidate_exhaustive env b pvd code d pov
        = .ok (.ok (.Invalid .Timeout))) ∧
    (∀ m, b raw_code ⟨pvd.parent_head, raw_block, pvd.relay_parent_number,
        pvd.relay_parent_storage_root⟩
        = .error (.InvalidCandidate (.WorkerReportedError m)) →
      validate_candidate_exhaustive env b pvd code d pov
        = .ok (.ok (.Invalid (.ExecutionError m)))) ∧
    (∀ m, b raw_code ⟨pvd.parent_head, raw_block, pvd.relay_parent_number,
        pvd.relay_parent_storage_root⟩ = .error (.InternalError m) →
      validate_candidate_exhaustive env b pvd code d pov = .ok (.error ⟨m⟩)) := by
  refine ⟨?_, ?_, ?_, ?_, ?_⟩
  · intro res hres hh
    unfold validate_candidate_exhaustive
    rw [hb, hc, hp]
    dsimp only
    rw [hres]
    dsimp only
    rw [if_neg (fun hcon => hcon hh)]
  · intro res hres hh
    unfold validate_candidate_exhaustive
    rw [hb, hc, hp]
    dsimp only
    rw [hres]
    dsimp only
    rw [if_pos hh]
  · intro hres
    unfold validate_candidate_exhaustive
    rw [hb, hc, hp]
    dsimp only
    rw [hres]
  · intro m hres
    unfold validate_candidate_exhaustive
    rw [hb, hc, hp]
    dsimp only
    rw [hres]
  · intro m hres
    unfold validate_candidate_exhaustive
    rw [hb, hc, hp]
    dsimp only
    rw [hres]

/-- Witness for C1: the five classifier cases at concrete inputs. -/
theorem execution_classifier_cases_witness :
    validate_candidate_exhaustive genv gbackend gpvd gcode gdescriptor gpov
      = .ok (.ok (.Valid gcommitments gpvd)) ∧
    validate_candidate_exhaustive genv
        (fun _ _ => .ok { gres with head_data := [9] }) gpvd gcode gdescriptor
        gpov = .ok (.ok (.Invalid .ParaHeadHashMismatch)) ∧
    validate_candidate_exhaustive genv
        (fun _ _ => .error (.InvalidCandidate .HardTimeout)) gpvd gcode
        gdescriptor gpov = .ok (.ok (.Invalid .Timeout)) ∧
    validate_candidate_exhaustive genv
        (fun _ _ => .error (.InvalidCandidate (.WorkerReportedError "boom")))
        gpvd gcode gdescriptor gpov
      = .ok (.ok (.Invalid (.ExecutionError "boom"))) ∧
    validate_candidate_exhaustive genv
        (fun _ _ => .error (.InternalError "ouch")) gpvd gcode gdescriptor gpov
      = .ok (.error ⟨"ouch"⟩) := by
  refine ⟨?_, ?_, ?_, ?_, ?_⟩
  · exact (execution_classifier_cases genv gbackend gpvd gcode gdescriptor gpov
      [1, 2] [5] rfl rfl rfl).1 gres rfl rfl
  · exact (execution_classifier_cases genv
      (fun _ _ => .ok { gres with head_data := [9] }) gpvd gcode gdescriptor
      gpov [1, 2] [5] rfl rfl rfl).2.1 { gres with head_data := [9] } rfl
      (by decide)
  · exact (execution_classifier_cases genv
      (fun _ _ => .error (.InvalidCandidate .HardTimeout)) gpvd gcode
      gdescriptor gpov [1, 2] [5] rfl rfl rfl).2.2.1 rfl
  · exact (execution_classifier_cases genv
      (fun _ _ => .error (.InvalidCandidate (.WorkerReportedError "boom")))
      gpvd gcode gdescriptor gpov [1, 2] [5] rfl rfl rfl).2.2.2.1 "boom" rfl
  · exact (execution_classifier_cases genv
      (fun _ _ => .error (.InternalError "ouch")) gpvd gcode gdescriptor gpov
      [1, 2] [5] rfl rfl rfl).2.2.2.2 "ouch" rfl

/-- C4: `perform_basic_checks` evaluates size, PoV hash, code hash and
collator signature in that fixed order and returns the reason of the first
failing check; it returns `Ok` iff all four pass.  The size check has no
hypothesis about the other checks, so an oversized PoV with a mismatching
hash still yields `ParamsTooLarge`. -/
theorem perform_basic_checks_order (env : Env) (d : CandidateDescriptor)
    (max_pov_size : Nat) (pov : PoV) (code : ValidationCode) :
    (env.encoded_size pov > max_pov_size →
      perform_basic_checks env d max_pov_size pov code
        = .error (.ParamsTooLarge (env.encoded_size pov))) ∧
    (env.encoded_size pov ≤ max_pov_size → env.hash_pov pov ≠ d.pov_hash →
      perform_basic_checks env d max_pov_size pov code
        = .error .PoVHashMismatch) ∧
    (env.encoded_size pov ≤ max_pov_size → env.hash_pov pov = d.pov_hash →
      env.hash_validation_code code ≠ d.validation_code_hash →
      perform_basic_checks env d max_pov_size pov code
        = .error .CodeHashMismatch) ∧
    (env.encoded_size pov ≤ max_pov_size → env.hash_pov pov = d.pov_hash →
      env.hash_validation_code code = d.validation_code_hash →
      env.check_collator_signature d = .error () →
      perform_basic_checks env d max_pov_size pov code
        = .error .BadSignature) ∧
    (perform_basic_checks env d max_pov_size pov code = .ok () ↔
      (env.encoded_size pov ≤ max_pov_size ∧
        env.hash_pov pov = d.pov_hash ∧
        env.hash_validation_code code = d.validation_code_hash ∧
        env.check_collator_signature d = .ok ())) := by
  refine ⟨?_, ?_, ?_, ?_, ?_⟩
  · intro h1
    unfold perform_basic_checks
    dsimp only
    rw [if_pos h1]
  · intro h1 h2
    unfold perform_basic_checks
    dsimp only
    rw [if_neg (by omega), if_pos h2]
  · intro h1 h2 h3
    unfold perform_basic_checks
    dsimp only
    rw [if_neg (by omega), if_neg (fun hcon => hcon h2), if_pos h3]
  · intro h1 h2 h3 h4
    unfold perform_basic_checks
    dsimp only
    rw [if_neg (by omega), if_neg (fun hcon => hcon h2),
      if_neg (fun hcon => hcon h3), h4]
  · unfold perform_basic_checks
    dsimp only
    constructor
    · intro h
      split_ifs at h with h1 h2 h3
      · cases hsig : env.check_collator_signature d with
        | error u => rw [hsig] at h; cases u; cases h
        | ok u =>
          cases u
          refine ⟨by omega, by simpa using h2, by simpa using h3, rfl⟩
    · rintro ⟨h1, h2, h3, h4⟩
      rw [if_neg (by omega), if_neg (fun hcon => hcon h2),
        if_neg (fun hcon => hcon h3), h4]

/-- Witness for C4: each of the four failure reasons and the all-pass case
at concrete inputs. -/
theorem perform_basic_checks_order_witness :
    perform_basic_checks genv gdescriptor 0 gpov gcode
      = .error (.ParamsTooLarge 1) ∧
    perform_basic_checks genv { gdescriptor with pov_hash := 9 } 100 gpov gcode
      = .error .PoVHashMismatch ∧
    perform_basic_checks genv { gdescriptor with validation_code_hash := 9 }
      100 gpov gcode = .error .CodeHashMismatch ∧
    perform_basic_checks
      { genv with check_collator_signature := fun _ => .error () }
      gdescriptor 100 gpov gcode = .error .BadSignature ∧
    perform_basic_checks genv gdescriptor 100 gpov gcode = .ok () := by
  refine ⟨?_, ?_, ?_, ?_, ?_⟩
  · exact (perform_basic_checks_order genv gdescriptor 0 gpov gcode).1
      (by decide)
  · exact (perform_basic_checks_order genv { gdescriptor with pov_hash := 9 }
      100 gpov gcode).2.1 (by decide) (by decide)
  · exact (perform_basic_checks_order genv
      { gdescriptor with validation_code_hash := 9 } 100 gpov gcode).2.2.1
      (by decide) (by decide) (by decide)
  · exact (perform_basic_checks_order
      { genv with check_collator_signature := fun _ => .error () }
      gdescriptor 100 gpov gcode).2.2.2.1 (by decide) (by decide) (by decide)
      rfl
  · exact (perform_basic_checks_order genv gdescriptor 100 gpov gcode).2.2.2.2.mpr
      ⟨by decide, by decide, by decide, rfl⟩

/-- C5: after basic checks pass, a failed bounded decompression of the
validation code yields exactly `Invalid(CodeDecompressionFailure)`, and a
successful code decompression followed by a failed bounded decompression of
the PoV block data yields exactly `Invalid(PoVDecompressionFailure)`; in
both cases the conclusion holds for every backend, so the execution host is
never invoked, and the conclusion constrains `decompress` only at the fixed
bomb limits, so no retry at another limit can occur. -/
theorem decompression_bounding (env : Env) (pvd : PersistedValidationData)
    (code : ValidationCode) (d : CandidateDescriptor) (pov : PoV)
    (hb : perform_basic_checks env d pvd.max_pov_size pov code = .ok ()) :
    (env.decompress code.bytes VALIDATION_CODE_BOMB_LIMIT = .error () →
      ∀ b : ValidationBackend,
        validate_candidate_exhaustive env b pvd code d pov
          = .ok (.ok (.Invalid .CodeDecompressionFailure))) ∧
    (∀ raw_code,
      env.decompress code.bytes VALIDATION_CODE_BOMB_LIMIT = .ok raw_code →
      env.decompress pov.block_data POV_BOMB_LIMIT = .error () →
      ∀ b : ValidationBackend,
        validate_candidate_exhaustive env b pvd code d pov
          = .ok (.ok (.Invalid .PoVDecompressionFailure))) := by
  constructor
  · intro hc b
    unfold validate_candidate_exhaustive
    rw [hb, hc]
  · intro raw_code hc hp b
    unfold validate_candidate_exhaustive
    rw [hb, hc, hp]

/-- Witness for C5: an environment whose decompression always fails rejects
the code, and one whose decompression fails only on the PoV bytes rejects
the PoV. -/
theorem decompression_bounding_witness :
    validate_candidate_exhaustive
      { genv with decompress := fun _ _ => .error () } gbackend gpvd gcode
      gdescriptor gpov = .ok (.ok (.Invalid .CodeDecompressionFailure)) ∧
    validate_candidate_exhaustive
      { genv with decompress := fun bytes _ =>
          if bytes = gcode.bytes then .ok bytes else .error () } gbackend gpvd
      gcode gdescriptor gpov
      = .ok (.ok (.Invalid .PoVDecompressionFailure)) := by
  constructor
  · exact (decompression_bounding
      { genv with decompress := fun _ _ => .error () } gpvd gcode gdescriptor
      gpov rfl).1 rfl gbackend
  · exact (decompression_bounding
      { genv with decompress := fun bytes _ =>
          if bytes = gcode.bytes then .ok bytes else .error () } gpvd gcode
      gdescriptor gpov rfl).2 [1, 2] rfl rfl gbackend

/-- C9 (amended): when the execution host reports `AmbigiousWorkerDeath`
(the source's spelling), `validate_candidate_exhaustive` returns
`Invalid(ExecutionError(m))` with `m` exactly the string
"ambigious worker death" as spelled in the source, not
"ambiguous worker death". -/
theorem ambiguous_worker_death_message (env : Env) (b : ValidationBackend)
    (pvd : PersistedValidationData) (code : ValidationCode)
    (d : CandidateDescriptor) (pov : PoV) (raw_code raw_block : List Nat)
    (hb : perform_basic_checks env d pvd.max_pov_size pov code = .ok ())
    (hc : env.decompress code.bytes VALIDATION_CODE_BOMB_LIMIT = .ok raw_code)
    (hp : env.decompress pov.block_data POV_BOMB_LIMIT = .ok raw_block)
    (hbk : b raw_code ⟨pvd.parent_head, raw_block, pvd.relay_parent_number,
        pvd.relay_parent_storage_root⟩
      = .error (.InvalidCandidate .AmbigiousWorkerDeath)) :
    validate_candidate_exhaustive env b pvd code d pov
      = .ok (.ok (.Invalid (.ExecutionError "ambigious worker death"))) := by
  unfold validate_candidate_exhaustive
  rw [hb, hc, hp]
  dsimp only
  rw [hbk]

/-- Counterexample for C9 as stated: at a concrete input where the host
reports ambiguous worker death, the message produced by the code is
"ambigious worker death", which differs from the claimed string
"ambiguous worker death". -/
theorem ambiguous_worker_death_counterexample :
    validate_candidate_exhaustive genv
        (fun _ _ => .error (.InvalidCandidate .AmbigiousWorkerDeath)) gpvd
        gcode gdescriptor gpov
      = .ok (.ok (.Invalid (.ExecutionError "ambigious worker death"))) ∧
    "ambigious worker death" ≠ "ambiguous worker death" :=
  ⟨rfl, by decide⟩

/-- Witness for C9's amended theorem at a concrete input. -/
theorem ambiguous_worker_death_message_witness :
    validate_candidate_exhaustive genv
        (fun _ _ => .error (.InvalidCandidate .AmbigiousWorkerDeath)) gpvd
        gcode { gdescriptor with para_id := 8 } gpov
      = .ok (.ok (.Invalid (.ExecutionError "ambigious worker death"))) :=
  ambiguous_worker_death_message genv
    (fun _ _ => .error (.InvalidCandidate .AmbigiousWorkerDeath)) gpvd gcode
    { gdescriptor with para_id := 8 } gpov [1, 2] [5] rfl rfl rfl rfl

/-- A `Valid` verdict of `validate_candidate_exhaustive` always carries the
`PersistedValidationData` it was given as input. -/
theorem validate_valid_pvd (env : Env) (b : ValidationBackend)
    (pvd : PersistedValidationData) (code : ValidationCode)
    (d : CandidateDescriptor) (pov : PoV) (c : CandidateCommitments)
    (p : PersistedValidationData)
    (h : validate_candidate_exhaustive env b pvd code d pov
      = .ok (.ok (.Valid c p))) : p = pvd := by
  unfold validate_candidate_exhaustive at h
  dsimp only at h
  repeat' split at h
  all_goals simp_all

/-- `check_assumption_validation_data` returns `Matches(v, c)` only when the
descriptor's hash commitment equals the hash of `v`. -/
theorem check_matches_hash (env : Env) (d : CandidateDescriptor)
    (a : OccupiedCoreAssumption) (v : PersistedValidationData)
    (c : ValidationCode)
    (h : check_assumption_validation_data env d a = .ok (.Matches v c)) :
    d.persisted_validation_data_hash = env.hash_pvd v := by
  unfold check_assumption_validation_data at h
  dsimp only at h
  repeat' split at h
  all_goals simp_all

/-- `find_assumed_validation_data` returns `Matches(v, c)` only when the
descriptor's hash commitment equals the hash of `v`. -/
theorem find_matches_hash (env : Env) (d : CandidateDescriptor)
    (v : PersistedValidationData) (c : ValidationCode)
    (h : find_assumed_validation_data env d = .ok (.Matches v c)) :
    d.persisted_validation_data_hash = env.hash_pvd v := by
  unfold find_assumed_validation_data ASSUMPTIONS at h
  rw [find_assumed_loop] at h
  rcases h1 : check_assumption_validation_data env d .Included with se | o <;>
    rw [h1] at h
  · cases h
  · cases o with
    | Matches d1 c1 =>
      cases h
      exact check_matches_hash env d .Included v c h1
    | BadRequest => cases h
    | DoesNotMatch =>
      dsimp only at h
      rw [find_assumed_loop] at h
      rcases h2 : check_assumption_validation_data env d .TimedOut with se | o2 <;>
        rw [h2] at h
      · cases h
      · cases o2 with
        | Matches d2 c2 =>
          cases h
          exact check_matches_hash env d .TimedOut v c h2
        | BadRequest => cases h
        | DoesNotMatch => rw [find_assumed_loop] at h; cases h

/-- C2 (amended): `validate_candidate_exhaustive` returns in a `Valid`
verdict exactly the `PersistedValidationData` it was given (the exhaustive
entry point performs no hash check against the descriptor); on the
chain-state path, the `PersistedValidationData` in a `Valid` verdict is one
whose canonical hash equals `descriptor.persisted_validation_data_hash`. -/
theorem valid_pvd_provenance :
    (∀ (env : Env) (b : ValidationBackend) (pvd : PersistedValidationData)
      (code : ValidationCode) (d : CandidateDescriptor) (pov : PoV)
      (c : CandidateCommitments) (p : PersistedValidationData),
      validate_candidate_exhaustive env b pvd code d pov
        = .ok (.ok (.Valid c p)) → p = pvd) ∧
    (∀ (env : Env) (b : ValidationBackend) (d : CandidateDescriptor)
      (pov : PoV) (c : CandidateCommitments) (p : PersistedValidationData),
      spawn_validate_from_chain_state env b d pov = .ok (.ok (.Valid c p)) →
      d.persisted_validation_data_hash = env.hash_pvd p) := by
  constructor
  · exact validate_valid_pvd
  · intro env b d pov c p h
    unfold spawn_validate_from_chain_state at h
    rcases hf : find_assumed_validation_data env d with se | o <;> rw [hf] at h
    · cases h
    · cases o with
      | DoesNotMatch => cases h
      | BadRequest => cases h
      | Matches vd vc =>
        dsimp only at h
        rcases hv : validate_candidate_exhaustive env b vd vc d pov
          with se2 | r <;> rw [hv] at h
        · cases h
        · have hpv := find_matches_hash env d vd vc hf
          rcases r with f | vr
          · cases h
          · rcases vr with ⟨outputs, pvd2⟩ | reason
            · have hpvd2 : pvd2 = vd :=
                validate_valid_pvd env b vd vc d pov outputs pvd2 hv
              dsimp only at h
              rcases hco : env.check_validation_outputs_req d.relay_parent
                  d.para_id outputs with se3 | cr <;> rw [hco] at h
              · cases h
              · rcases cr with er | bo
                · cases h
                · cases bo
                  · cases h
                  · cases h
                    rw [hpvd2]
                    exact hpv
            · cases h

/-- Counterexample for C2 as stated: a concrete exhaustive-path input on
which the verdict is `Valid` carrying `gpvd`, although the hash of `gpvd`
differs from the descriptor's `persisted_validation_data_hash`. -/
theorem valid_pvd_hash_counterexample :
    validate_candidate_exhaustive genv gbackend gpvd gcode
        { gdescriptor with persisted_validation_data_hash := 999 } gpov
      = .ok (.ok (.Valid gcommitments gpvd)) ∧
    genv.hash_pvd gpvd
      ≠ ({ gdescriptor with persisted_validation_data_hash := 999
          } : CandidateDescriptor).persisted_validation_data_hash :=
  ⟨rfl, by decide⟩

/-- Witness for C2's amended theorem: both conjuncts applied at a concrete
input on which the chain-state path returns `Valid`. -/
theorem valid_pvd_provenance_witness :
    gpvd = gpvd ∧
    gdescriptor.persisted_validation_data_hash = genv.hash_pvd gpvd :=
  ⟨valid_pvd_provenance.1 genv gbackend gpvd gcode gdescriptor gpov
      gcommitments gpvd rfl,
    valid_pvd_provenance.2 genv gbackend gdescriptor gpov gcommitments gpvd
      rfl⟩

/-- `check_assumption_validation_data` depends on the environment only
through `hash_pvd` and the two runtime queries at the probed coordinates. -/
theorem check_assumption_congr (e1 e2 : Env) (d : CandidateDescriptor)
    (a : OccupiedCoreAssumption)
    (h1 : e1.hash_pvd = e2.hash_pvd)
    (h2 : e1.persisted_validation_data_req d.relay_parent d.para_id a
      = e2.persisted_validation_data_req d.relay_parent d.para_id a)
    (h3 : e1.validation_code_req d.relay_parent d.para_id a
      = e2.validation_code_req d.relay_parent d.para_id a) :
    check_assumption_validation_data e1 d a
      = check_assumption_validation_data e2 d a := by
  unfold check_assumption_validation_data
  rw [h2, h3, h1]

/-- One unfolding step of the resolver loop. -/
theorem find_assumed_loop_cons (env : Env) (d : CandidateDescriptor)
    (a : OccupiedCoreAssumption) (rest : List OccupiedCoreAssumption) :
    find_assumed_loop env d (a :: rest) =
      (match check_assumption_validation_data env d a with
      | .error se => .error se
      | .ok (.Matches v c) => .ok (.Matches v c)
      | .ok .BadRequest => .ok .BadRequest
      | .ok .DoesNotMatch => find_assumed_loop env d rest) := by
  rw [find_assumed_loop]
  rcases h : check_assumption_validation_data env d a with se | o
  · rfl
  · rcases o with ⟨v, c⟩ | _ | _ <;> rfl

/-- The resolver loop on an empty assumption list is `DoesNotMatch`. -/
theorem find_assumed_loop_nil (env : Env) (d : CandidateDescriptor) :
    find_assumed_loop env d [] = .ok .DoesNotMatch := by
  rw [find_assumed_loop]

/-- The per-assumption step of the spec's resolver agrees with
`check_assumption_validation_data`, with `none` standing for the source's
`DoesNotMatch` continuation. -/
theorem probe_spec_eq_check (env : Env) (d : CandidateDescriptor)
    (a : OccupiedCoreAssumption) :
    probe_spec env d a =
      (match check_assumption_validation_data env d a with
      | .error se => .error se
      | .ok (.Matches v c) => .ok (some (.Matches v c))
      | .ok .BadRequest => .ok (some .BadRequest)
      | .ok .DoesNotMatch => .ok none) := by
  unfold probe_spec check_assumption_validation_data
  rcases h1 : env.persisted_validation_data_req d.relay_parent d.para_id a
    with se | ir
  · rfl
  · rcases ir with e | o
    · rfl
    · rcases o with _ | data
      · rfl
      · dsimp only
        by_cases hh : d.persisted_validation_data_hash = env.hash_pvd data
        · rw [if_neg (fun hc => hc hh.symm), if_pos hh]
          rcases h2 : env.validation_code_req d.relay_parent d.para_id a
            with se2 | ir2
          · rfl
          · rcases ir2 with e2 | o2
            · rfl
            · rcases o2 with _ | code <;> rfl
        · rw [if_pos (fun hc => hh hc.symm), if_neg hh]

/-- C6: the assumption resolver `find_assumed_validation_data` implements
exactly the algorithm of the spec (probe `Included` then `TimedOut`;
`BadRequest` immediately on an errored or absent data lookup; on a hash
mismatch move on without consulting `ValidationCode`; on a hash match map
the code lookup to `BadRequest`/`Matches`; `DoesNotMatch` only after both
hashes failed to match).  Conjunct two: when the data answer at `a` is not a
hash-matching `Some`, the outcome is independent of the `ValidationCode`
oracle, i.e. that query is never made.  Conjunct three: when the `Included`
probe short-circuits (`Matches`, `BadRequest` or an error), the result is
independent of everything outside the `Included` coordinates, i.e. the
`TimedOut` assumption is not probed. -/
theorem assumption_resolver_spec (env : Env) (d : CandidateDescriptor) :
    (find_assumed_validation_data env d = resolve_spec env d) ∧
    (∀ (a : OccupiedCoreAssumption)
      (cq : Hash → ParaId → OccupiedCoreAssumption →
        Except SubsystemError (Except RuntimeApiError (Option ValidationCode))),
      pvd_no_match_at env d a = true →
      check_assumption_validation_data
          { env with validation_code_req := cq } d a
        = check_assumption_validation_data env d a) ∧
    (∀ e2 : Env, e2.hash_pvd = env.hash_pvd →
      e2.persisted_validation_data_req d.relay_parent d.para_id .Included
        = env.persisted_validation_data_req d.relay_parent d.para_id .Included →
      e2.validation_code_req d.relay_parent d.para_id .Included
        = env.validation_code_req d.relay_parent d.para_id .Included →
      check_assumption_validation_data env d .Included ≠ .ok .DoesNotMatch →
      find_assumed_validation_data e2 d = find_assumed_validation_data env d) := by
  refine ⟨?_, ?_, ?_⟩
  · unfold resolve_spec
    rw [probe_spec_eq_check, probe_spec_eq_check]
    unfold find_assumed_validation_data ASSUMPTIONS
    rw [find_assumed_loop_cons env d .Included [.TimedOut],
      find_assumed_loop_cons env d .TimedOut [], find_assumed_loop_nil env d]
    rcases hI : check_assumption_validation_data env d .Included with se | o
    · rfl
    · rcases o with ⟨v, c⟩ | _ | _
      · rfl
      · dsimp only
        rcases hT : check_assumption_validation_data env d .TimedOut
          with se2 | o2
        · rfl
        · rcases o2 with ⟨v2, c2⟩ | _ | _ <;> rfl
      · rfl
  · intro a cq hnm
    unfold pvd_no_match_at at hnm
    unfold check_assumption_validation_data
    dsimp only
    rcases h1 : env.persisted_validation_data_req d.relay_parent d.para_id a
      with se | ir
    · rfl
    · rcases ir with e | o
      · rfl
      · rcases o with _ | data
        · rfl
        · rw [h1] at hnm
          dsimp only at hnm ⊢
          have hne : ¬(d.persisted_validation_data_hash
              = env.hash_pvd data) := by
            simp only [bne_iff_ne, ne_eq] at hnm
            exact fun hc => hnm hc.symm
          rw [if_neg hne, if_neg hne]
  · intro e2 hh hp hv hnd
    have hc : check_assumption_validation_data e2 d .Included
        = check_assumption_validation_data env d .Included :=
      check_assumption_congr e2 env d .Included hh hp hv
    unfold find_assumed_validation_data ASSUMPTIONS
    rw [find_assumed_loop_cons e2 d .Included [.TimedOut],
      find_assumed_loop_cons env d .Included [.TimedOut], hc]
    rcases hI : check_assumption_validation_data env d .Included with se | o
    · rfl
    · rcases o with ⟨v, c⟩ | _ | _
      · rfl
      · exact absurd hI hnd
      · rfl

/-- Witness for C6: the refinement at a concrete environment, the
`ValidationCode`-independence at a concrete mismatching descriptor, and the
short-circuit independence at a concrete matching descriptor. -/
theorem assumption_resolver_spec_witness :
    find_assumed_validation_data genv gdescriptor
      = resolve_spec genv gdescriptor ∧
    check_assumption_validation_data
        { genv with validation_code_req := fun _ _ _ => .ok (.ok none) }
        { gdescriptor with persisted_validation_data_hash := 999 } .Included
      = check_assumption_validation_data genv
        { gdescriptor with persisted_validation_data_hash := 999 } .Included ∧
    find_assumed_validation_data genv gdescriptor
      = find_assumed_validation_data genv gdescriptor :=
  ⟨(assumption_resolver_spec genv gdescriptor).1,
    (assumption_resolver_spec genv
        { gdescriptor with persisted_validation_data_hash := 999 }).2.1
      .Included (fun _ _ _ => .ok (.ok none)) rfl,
    (assumption_resolver_spec genv gdescriptor).2.2 genv rfl rfl rfl
      (by decide)⟩

/-- C7 (amended): in `spawn_validate_from_chain_state` a resolver outcome of
`DoesNotMatch` yields `Invalid(BadParent)` and `BadRequest` yields the
internal failure with message "Assumption Check: Bad request" (the source's
capitalisation); both conclusions hold for every backend, so neither the
exhaustive validator nor the execution host is invoked. -/
theorem chain_state_resolution_outcomes :
    (∀ (env : Env) (b : ValidationBackend) (d : CandidateDescriptor)
      (pov : PoV),
      find_assumed_validation_data env d = .ok .DoesNotMatch →
      spawn_validate_from_chain_state env b d pov
        = .ok (.ok (.Invalid .BadParent))) ∧
    (∀ (env : Env) (b : ValidationBackend) (d : CandidateDescriptor)
      (pov : PoV),
      find_assumed_validation_data env d = .ok .BadRequest →
      spawn_validate_from_chain_state env b d pov
        = .ok (.error ⟨"Assumption Check: Bad request"⟩)) := by
  constructor <;>
    · intro env b d pov h
      unfold spawn_validate_from_chain_state
      rw [h]

/-- Counterexample for C7 as stated: at a concrete input on which the
resolver reports `BadRequest`, the failure message produced by the code is
"Assumption Check: Bad request", which differs from the claimed
"assumption check: bad request". -/
theorem chain_state_resolution_counterexample :
    spawn_validate_from_chain_state
        { genv with
          persisted_validation_data_req := fun _ _ _ => .ok (.ok none) }
        gbackend gdescriptor gpov
      = .ok (.error ⟨"Assumption Check: Bad request"⟩) ∧
    ValidationFailed.mk "Assumption Check: Bad request"
      ≠ ValidationFailed.mk "assumption check: bad request" :=
  ⟨rfl, by decide⟩

/-- Witness for C7's amended theorem: a concrete mismatching descriptor
yields `BadParent` and a concrete absent-data environment yields the
internal failure. -/
theorem chain_state_resolution_outcomes_witness :
    spawn_validate_from_chain_state genv gbackend
        { gdescriptor with persisted_validation_data_hash := 999 } gpov
      = .ok (.ok (.Invalid .BadParent)) ∧
    spawn_validate_from_chain_state
        { genv with
          persisted_validation_data_req := fun _ _ _ => .ok (.ok none) }
        gbackend gdescriptor gpov
      = .ok (.error ⟨"Assumption Check: Bad request"⟩) :=
  ⟨chain_state_resolution_outcomes.1 genv gbackend
      { gdescriptor with persisted_validation_data_hash := 999 } gpov rfl,
    chain_state_resolution_outcomes.2
      { genv with
        persisted_validation_data_req := fun _ _ _ => .ok (.ok none) }
      gbackend gdescriptor gpov rfl⟩

/-- When the resolver returns `Matches(v, c)`, the chain-state entry point
is the exhaustive validation post-processed by the output check. -/
theorem spawn_unfold (env : Env) (b : ValidationBackend)
    (d : CandidateDescriptor) (pov : PoV) (v : PersistedValidationData)
    (c : ValidationCode)
    (hf : find_assumed_validation_data env d = .ok (.Matches v c)) :
    spawn_validate_from_chain_state env b d pov =
      (match validate_candidate_exhaustive env b v c d pov with
      | .ok (.ok (.Valid outputs pvd)) =>
        (match env.check_validation_outputs_req d.relay_parent d.para_id
            outputs with
        | .error se => .error se
        | .ok (.ok true) => .ok (.ok (.Valid outputs pvd))
        | .ok (.ok false) => .ok (.ok (.Invalid .InvalidOutputs))
        | .ok (.error _) =>
            .ok (.error ⟨"Check Validation Outputs: Bad request"⟩))
      | other => other) := by
  unfold spawn_validate_from_chain_state
  rw [hf]

/-- C8 (amended): given a resolver match, a `Valid` verdict of the
exhaustive validation is kept iff the `CheckValidationOutputs` runtime call
returns `true`; `false` overwrites it to `Invalid(InvalidOutputs)`; a
runtime error yields the internal failure with message
"Check Validation Outputs: Bad request" (the source's capitalisation); a
non-`Valid` result is returned unchanged and is independent of the
`CheckValidationOutputs` oracle, which is therefore not called. -/
theorem output_check_gating (env : Env) (b : ValidationBackend)
    (d : CandidateDescriptor) (pov : PoV) (v : PersistedValidationData)
    (c : ValidationCode)
    (hf : find_assumed_validation_data env d = .ok (.Matches v c)) :
    (∀ outputs p,
      validate_candidate_exhaustive env b v c d pov
        = .ok (.ok (.Valid outputs p)) →
      (env.check_validation_outputs_req d.relay_parent d.para_id outputs
          = .ok (.ok true) →
        spawn_validate_from_chain_state env b d pov
          = .ok (.ok (.Valid outputs p))) ∧
      (env.check_validation_outputs_req d.relay_parent d.para_id outputs
          = .ok (.ok false) →
        spawn_validate_from_chain_state env b d pov
          = .ok (.ok (.Invalid .InvalidOutputs))) ∧
      (∀ er, env.check_validation_outputs_req d.relay_parent d.para_id outputs
          = .ok (.error er) →
        spawn_validate_from_chain_state env b d pov
          = .ok (.error ⟨"Check Validation Outputs: Bad request"⟩))) ∧
    (is_valid_result (validate_candidate_exhaustive env b v c d pov)
        = false →
      spawn_validate_from_chain_state env b d pov
        = validate_candidate_exhaustive env b v c d pov ∧
      ∀ co, spawn_validate_from_chain_state
          { env with check_validation_outputs_req := co } b d pov
        = spawn_validate_from_chain_state env b d pov) := by
  constructor
  · intro outputs p hv
    refine ⟨?_, ?_, ?_⟩
    · intro hco
      rw [spawn_unfold env b d pov v c hf, hv]
      dsimp only
      rw [hco]
    · intro hco
      rw [spawn_unfold env b d pov v c hf, hv]
      dsimp only
      rw [hco]
    · intro er hco
      rw [spawn_unfold env b d pov v c hf, hv]
      dsimp only
      rw [hco]
  · intro h2
    have hmain : ∀ (e3 : Env),
        e3.hash_head_data = env.hash_head_data →
        e3.hash_pvd = env.hash_pvd →
        e3.hash_pov = env.hash_pov →
        e3.hash_validation_code = env.hash_validation_code →
        e3.encoded_size = env.encoded_size →
        e3.check_collator_signature = env.check_collator_signature →
        e3.decompress = env.decompress →
        e3.persisted_validation_data_req = env.persisted_validation_data_req →
        e3.validation_code_req = env.validation_code_req →
        find_assumed_validation_data e3 d = .ok (.Matches v c) →
        validate_candidate_exhaustive e3 b v c d pov
          = validate_candidate_exhaustive env b v c d pov →
        spawn_validate_from_chain_state e3 b d pov
          = validate_candidate_exhaustive env b v c d pov := by
      intro e3 _ _ _ _ _ _ _ _ _ hf3 hval3
      rw [spawn_unfold e3 b d pov v c hf3, hval3]
      rcases hval : validate_candidate_exhaustive env b v c d pov with se | r
      · rfl
      · rcases r with f | vr
        · rfl
        · rcases vr with ⟨outputs, p⟩ | reason
          · rw [hval] at h2
            simp [is_valid_result] at h2
          · rfl
    constructor
    · exact hmain env rfl rfl rfl rfl rfl rfl rfl rfl rfl hf rfl
    · intro co
      have h1 := hmain { env with check_validation_outputs_req := co }
        rfl rfl rfl rfl rfl rfl rfl rfl rfl hf rfl
      have h2m := hmain env rfl rfl rfl rfl rfl rfl rfl rfl rfl hf rfl
      rw [h1, h2m]

/-- Counterexample for C8 as stated: at a concrete input on which the
output check errors, the failure message produced by the code is
"Check Validation Outputs: Bad request", which differs from the claimed
"check validation outputs: bad request". -/
theorem output_check_gating_counterexample :
    spawn_validate_from_chain_state
        { genv with
          check_validation_outputs_req := fun _ _ _ => .ok (.error ⟨0⟩) }
        gbackend gdescriptor gpov
      = .ok (.error ⟨"Check Validation Outputs: Bad request"⟩) ∧
    ValidationFailed.mk "Check Validation Outputs: Bad request"
      ≠ ValidationFailed.mk "check validation outputs: bad request" :=
  ⟨rfl, by decide⟩

/-- Witness for C8's amended theorem: keeping a `Valid` verdict on
`CheckValidationOutputs = true`, overwriting on `false`, failing on an API
error, and returning a non-`Valid` result unchanged independently of the
output-check oracle. -/
theorem output_check_gating_witness :
    spawn_validate_from_chain_state genv gbackend gdescriptor gpov
      = .ok (.ok (.Valid gcommitments gpvd)) ∧
    spawn_validate_from_chain_state
        { genv with
          check_validation_outputs_req := fun _ _ _ => .ok (.ok false) }
        gbackend gdescriptor gpov = .ok (.ok (.Invalid .InvalidOutputs)) ∧
    spawn_validate_from_chain_state
        { genv with
          check_validation_outputs_req := fun _ _ _ => .ok (.error ⟨0⟩) }
        gbackend gdescriptor gpov
      = .ok (.error ⟨"Check Validation Outputs: Bad request"⟩) ∧
    spawn_validate_from_chain_state genv
        (fun _ _ => .error (.InvalidCandidate .HardTimeout)) gdescriptor gpov
      = .ok (.ok (.Invalid .Timeout)) ∧
    spawn_validate_from_chain_state
        { genv with
          check_validation_outputs_req := fun _ _ _ => .ok (.ok false) }
        (fun _ _ => .error (.InvalidCandidate .HardTimeout)) gdescriptor gpov
      = spawn_validate_from_chain_state genv
        (fun _ _ => .error (.InvalidCandidate .HardTimeout)) gdescriptor
        gpov := by
  refine ⟨?_, ?_, ?_, ?_, ?_⟩
  · exact ((output_check_gating genv gbackend gdescriptor gpov gpvd gcode
      rfl).1 gcommitments gpvd rfl).1 rfl
  · exact ((output_check_gating
      { genv with
        check_validation_outputs_req := fun _ _ _ => .ok (.ok false) }
      gbackend gdescriptor gpov gpvd gcode rfl).1 gcommitments gpvd rfl).2.1
      rfl
  · exact ((output_check_gating
      { genv with
        check_validation_outputs_req := fun _ _ _ => .ok (.error ⟨0⟩) }
      gbackend gdescriptor gpov gpvd gcode rfl).1 gcommitments gpvd
      rfl).2.2 ⟨0⟩ rfl
  · exact ((output_check_gating genv
      (fun _ _ => .error (.InvalidCandidate .HardTimeout)) gdescriptor gpov
      gpvd gcode rfl).2 rfl).1
  · exact ((output_check_gating genv
      (fun _ _ => .error (.InvalidCandidate .HardTimeout)) gdescriptor gpov
      gpvd gcode rfl).2 rfl).2 (fun _ _ _ => .ok (.ok false))

end CandidateValidation
